import Mathlib

set_option maxRecDepth 8192

/-!
Shallow embedding of `src/libraries/solc/wrapper.js` (the solc wrapper of this
repository).  JavaScript values reachable from `JSON.parse` are modelled by
`JVal`, together with `jundefined` for the JavaScript value `undefined` (never a
parse result, but produced by property lookup misses).  Host built-ins
(`JSON.parse`, the native compiler entry points behind `cwrap`, and the
external `translate.js` collaborator) are oracle parameters of the model;
`JSON.stringify` is implemented, since the wrapper's observable output strings
depend on it.
-/

inductive JVal where
  | jundefined
  | jnull
  | jbool (b : Bool)
  | jnum (n : Int)
  | jstr (s : String)
  | jarr (elems : List JVal)
  | jobj (fields : List (String × JVal))

/-- JavaScript exceptions that the wrapper can raise or propagate. -/
inductive JsException where
  | typeError (msg : String)
  | assertionError (msg : String)
  | nativeFault (msg : String)
  deriving Repr, DecidableEq

/-- First-match association-list lookup, the behaviour of property lookup on a
JavaScript object (keys produced by `JSON.parse` are unique). -/
def lookupField : List (String × JVal) → String → Option JVal
  | [], _ => none
  | (k, v) :: rest, key => if k = key then some v else lookupField rest key

/-- A canonical numeric string (`"0"`, `"1"`, ...) decoded as an array index. -/
def decodeIndex (k : String) : Option Nat :=
  match k.toNat? with
  | some n => if toString n = k then some n else none
  | none => none

/-- JavaScript property access `v[k]`: throws a TypeError on `undefined` and
`null`, returns `undefined` on a miss, and supports the array-like `length`
and index properties of strings and arrays. -/
def JVal.getProp : JVal → String → Except JsException JVal
  | .jundefined, _ => .error (.typeError "Cannot read properties of undefined")
  | .jnull, _ => .error (.typeError "Cannot read properties of null")
  | .jbool _, _ => .ok .jundefined
  | .jnum _, _ => .ok .jundefined
  | .jstr s, k =>
      .ok (if k = "length" then .jnum s.length
           else match decodeIndex k with
                | some i => match s.data.get? i with
                            | some c => .jstr (String.mk [c])
                            | none => .jundefined
                | none => .jundefined)
  | .jarr xs, k =>
      .ok (if k = "length" then .jnum xs.length
           else match decodeIndex k with
                | some i => match xs.get? i with
                            | some v => v
                            | none => .jundefined
                | none => .jundefined)
  | .jobj fs, k =>
      .ok (match lookupField fs k with
           | some v => v
           | none => .jundefined)

/-- JavaScript loose equality to `null` (`== null`): true exactly for `null`
and `undefined`. -/
def JVal.looseNull : JVal → Bool
  | .jundefined => true
  | .jnull => true
  | _ => false

/-- JavaScript strict equality `v === lit` against a string literal: true only
when `v` is that string. -/
def JVal.strictEqStr : JVal → String → Bool
  | .jstr s, lit => s == lit
  | _, _ => false

/-- JavaScript strict equality `v === n` against a number literal: true only
when `v` is that number. -/
def JVal.strictEqNum : JVal → Int → Bool
  | .jnum m, n => m == n
  | _, _ => false

/-- JavaScript strict inequality `v !== null`: false only for `null` itself;
in particular `undefined !== null` is true. -/
def JVal.strictNeNull : JVal → Bool
  | .jnull => false
  | _ => true

/-- JavaScript truthiness. -/
def truthy : JVal → Bool
  | .jundefined => false
  | .jnull => false
  | .jbool b => b
  | .jnum n => n != 0
  | .jstr s => s != ""
  | .jarr _ => true
  | .jobj _ => true

def hexDigit (n : Nat) : Char :=
  if n < 10 then Char.ofNat (48 + n) else Char.ofNat (87 + n)

/-- Escaping of one character as performed by `JSON.stringify`. -/
def escapeJsonChar (c : Char) : String :=
  if c = '"' then "\\\""
  else if c = '\\' then "\\\\"
  else if c = '\n' then "\\n"
  else if c = '\r' then "\\r"
  else if c = '\t' then "\\t"
  else if c.toNat = 8 then "\\b"
  else if c.toNat = 12 then "\\f"
  else if c.toNat < 32 then "\\u00" ++ String.mk [hexDigit (c.toNat / 16), hexDigit (c.toNat % 16)]
  else String.mk [c]

def escapeJson (s : String) : String :=
  "\"" ++ String.join (s.data.map escapeJsonChar) ++ "\""

mutual
/-- `JSON.stringify` on a JavaScript value (used by the wrapper for the fatal
error documents, the re-serialized source bundle and the translated output).
Inside arrays `undefined` prints as `null`; inside objects properties holding
`undefined` are omitted, as in JavaScript. -/
def stringifyJ : JVal → String
  | .jundefined => "null"
  | .jnull => "null"
  | .jbool true => "true"
  | .jbool false => "false"
  | .jnum n => toString n
  | .jstr s => escapeJson s
  | .jarr xs => "[" ++ stringifyElems xs ++ "]"
  | .jobj fs => "\x7b" ++ stringifyFields fs ++ "\x7d"

def stringifyElems : List JVal → String
  | [] => ""
  | [v] => stringifyJ v
  | v :: rest => stringifyJ v ++ "," ++ stringifyElems (rest)

def stringifyFields : List (String × JVal) → String
  | [] => ""
  | (k, v) :: rest =>
      match v with
      | .jundefined => stringifyFields rest
      | _ =>
          let r := stringifyFields rest
          escapeJson k ++ ":" ++ stringifyJ v ++ (if r = "" then "" else "," ++ r)
end

/-- Optionally signed integer literal with surrounding whitespace, the subset
of JavaScript string-to-number coercion exercised by the wrapper (an empty
string coerces to 0; anything else, fractional literals included, is treated
as NaN, i.e. `none`). -/
def parseIntString (s : String) : Option Int :=
  let t := s.trim
  if t = "" then some 0
  else if t.startsWith "-" then (t.drop 1).toNat?.map (fun n => -(n : Int))
  else if t.startsWith "+" then (t.drop 1).toNat?.map (fun n => (n : Int))
  else t.toNat?.map (fun n => (n : Int))

/-- JavaScript numeric coercion for the relational operator, `none` meaning
NaN.  Arrays coerce through their string form (`[] -> 0`, a one-element array
through its element, longer arrays through a comma-joined string, hence NaN
for the integral subset); plain objects coerce to NaN. -/
def jsToNumber : JVal → Option Int
  | .jundefined => none
  | .jnull => some 0
  | .jbool b => some (if b then 1 else 0)
  | .jnum n => some n
  | .jstr s => parseIntString s
  | .jarr [] => some 0
  | .jarr [x] =>
      match x with
      | .jundefined => some 0
      | .jnull => some 0
      | _ => jsToNumber x
  | .jarr (_ :: _ :: _) => none
  | .jobj _ => none

/-- The JavaScript comparison `v > 1` as applied to the `length` property on
line 127 of the source (false when the coercion yields NaN; in particular
`undefined > 1` is false). -/
def jsGtOne (v : JVal) : Bool :=
  match jsToNumber v with
  | some n => n > 1
  | none => false

/-- Which exported symbol the standard-JSON binding was built from
(`cwrap('compileStandard', ...)` versus `cwrap('solidity_compile', ...)`,
lines 73-85 of the source). -/
inductive StdSymbol where
  | viaCompileStandard
  | viaSolidityCompile
  deriving Repr, DecidableEq

/-- Observable calls the wrapper makes into the native module and into the
output translator collaborator.  Native-entry events record the marshalled
arguments; the translator event records the full argument list the wrapper
passes to `translate.translateJsonCompilerOutput`. -/
inductive CallEvent where
  | singleCall (source : JVal) (optimize : JVal)
  | multiCall (input : String) (optimize : JVal)
  | callbackCall (input : String) (optimize : JVal)
  | standardCall (sym : StdSymbol) (input : String)
  | translatorCall (args : List JVal)

/-- The opaque native module handle: which entry-point symbols its export
table contains (lines 55-85 probe these with the `in` operator), together
with oracle behaviours for the native code behind each `cwrap` binding.  A
behaviour returns the raw output string or throws (a category-(c) native
fault). -/
structure SoljsonModule where
  hasCompileJSON : Bool
  hasCompileJSONMulti : Bool
  hasCompileJSONCallback : Bool
  hasCompileStandard : Bool
  hasSolidityCompile : Bool
  compileJSONImpl : JVal → JVal → Except JsException String
  compileJSONMultiImpl : String → JVal → Except JsException String
  compileJSONCallbackImpl : String → JVal → Except JsException String
  compileStandardImpl : String → Except JsException String
  solidityCompileImpl : String → Except JsException String

/-- The final value of the `compileStandard` variable after lines 73-85: the
`_solidity_compile` probe runs second and overwrites a binding made from
`_compileStandard`. -/
def SoljsonModule.compileStandardBinding (m : SoljsonModule) : Option StdSymbol :=
  if m.hasSolidityCompile then some .viaSolidityCompile
  else if m.hasCompileStandard then some .viaCompileStandard
  else none

/-- The `readCallback` argument of `compileStandardWrapper`: absent
(`undefined`), a function, or some other defined value. -/
inductive CallbackArg where
  | absent
  | fn
  | notFn (v : JVal)

def CallbackArg.isNotFn : CallbackArg → Bool
  | .notFn _ => true
  | _ => false

/-- `formatFatalError` (lines 93-105): the synthesized fatal response
document. -/
def formatFatalError (message : String) : String :=
  stringifyJ (.jobj [("errors", .jarr [.jobj [
    ("type", .jstr "SOLCError"),
    ("component", .jstr "solcjs"),
    ("severity", .jstr "error"),
    ("message", .jstr message),
    ("formattedMessage", .jstr ("Error: " ++ message))]])])

/-- `isOptimizerEnabled` (lines 131-133): the chain
`input['settings'] && input['settings']['optimizer'] && ...['enabled']`,
returning the first falsy operand or the last operand. -/
def isOptimizerEnabled (input : JVal) : Except JsException JVal := do
  let s ← input.getProp "settings"
  if truthy s = false then return s
  let o ← s.getProp "optimizer"
  if truthy o = false then return o
  o.getProp "enabled"

/-- `librariesSupplied` (lines 148-152).  The guard is the strict
`input['settings'] !== null`, which an absent (`undefined`) settings block
passes, after which the property access on `undefined` throws a TypeError;
with no `return` taken the function yields `undefined`. -/
def librariesSupplied (input : JVal) : Except JsException JVal := do
  let s ← input.getProp "settings"
  if s.strictNeNull then
    s.getProp "libraries"
  else
    return .jundefined

/-- The keys a JavaScript `for (... in v)` loop enumerates (own enumerable
property names; the wrapper's source names are non-numeric strings, for which
insertion order is kept). -/
def JVal.ownKeys : JVal → List String
  | .jobj fs => fs.map (fun p => p.1)
  | .jarr xs => (List.range xs.length).map (fun i => toString i)
  | .jstr s => (List.range s.length).map (fun i => toString i)
  | _ => []

/-- The loop body of `translateSources` (lines 137-144): each source's
`content` is kept unless it is strictly `null`, in which case the whole
function returns `null` (modelled as `none`). -/
def translateSourcesLoop (srcsVal : JVal) :
    List String → List (String × JVal) → Except JsException (Option (List (String × JVal)))
  | [], acc => .ok (some acc)
  | k :: rest, acc => do
      let el ← srcsVal.getProp k
      let c ← el.getProp "content"
      match c with
      | .jnull => .ok none
      | _ => translateSourcesLoop srcsVal rest (acc ++ [(k, c)])

/-- `translateSources` (lines 135-146). -/
def translateSources (input : JVal) : Except JsException (Option (List (String × JVal))) := do
  let srcsVal ← input.getProp "sources"
  translateSourcesLoop srcsVal srcsVal.ownKeys []

/-- `translateOutput` (lines 154-165).  Its declaration takes the single
parameter `output`; the `libraries` value passed as a second argument at the
call sites on lines 177, 181 and 186 is therefore dropped, and
`translate.translateJsonCompilerOutput` receives only the parsed output.  The
translator collaborator (external `translate.js`) is an oracle; a loosely
null result becomes the fatal `Failed to process output` response. -/
def translateOutput (jsonParse : String → Except String JVal) (translator : JVal → JVal)
    (output : String) : List CallEvent × Except JsException String :=
  match jsonParse output with
  | .error msg => ([], .ok (formatFatalError ("Compiler returned invalid JSON: " ++ msg)))
  | .ok parsedOut =>
      let translated := translator parsedOut
      if translated.looseNull then
        ([.translatorCall [parsedOut]], .ok (formatFatalError "Failed to process output"))
      else
        ([.translatorCall [parsedOut]], .ok (stringifyJ translated))

/-- `compileStandardWrapper` (lines 88-190), the `compile` export.  The
returned event list records every native-entry and translator call the run
performs, in order; the second component is the returned string or the
exception that escapes.  `jsonParse` is the `JSON.parse` oracle (also used on
the native output inside `translateOutput`). -/
def compileStandardWrapper (m : SoljsonModule)
    (jsonParse : String → Except String JVal) (translator : JVal → JVal)
    (input : String) (readCallback : CallbackArg) :
    List CallEvent × Except JsException String :=
  match m.compileStandardBinding with
  | some sym =>
      -- lines 89-91: delegate the raw string; runWithReadCallback wraps the
      -- callback first, and wrapCallback asserts it is a function
      if readCallback.isNotFn then
        ([], .error (.assertionError "Invalid callback specified."))
      else
        let r := match sym with
          | .viaSolidityCompile => m.solidityCompileImpl input
          | .viaCompileStandard => m.compileStandardImpl input
        ([.standardCall sym input], r)
  | none =>
  -- lines 107-109
  if readCallback.isNotFn then
    ([], .ok (formatFatalError "Invalid import callback supplied"))
  else
  -- lines 111-115
  match jsonParse input with
  | .error msg => ([], .ok (formatFatalError ("Invalid JSON supplied: " ++ msg)))
  | .ok inp =>
  -- lines 117-119
  match inp.getProp "language" with
  | .error e => ([], .error e)
  | .ok lang =>
  if lang.strictEqStr "Solidity" = false then
    ([], .ok (formatFatalError "Only Solidity sources are supported"))
  else
  -- lines 121-124
  match inp.getProp "sources" with
  | .error e => ([], .error e)
  | .ok srcsVal =>
  if srcsVal.looseNull then
    ([], .ok (formatFatalError "No input specified"))
  else
  match srcsVal.getProp "length" with
  | .error e => ([], .error e)
  | .ok len =>
  if len.strictEqNum 0 then
    ([], .ok (formatFatalError "No input specified"))
  else
  -- lines 126-129
  if jsGtOne len && !m.hasCompileJSONMulti then
    ([], .ok (formatFatalError "Multiple sources provided, but compiler only supports single input"))
  else
  -- lines 167-170
  match translateSources inp with
  | .error e => ([], .error e)
  | .ok none => ([], .ok (formatFatalError "Failed to process sources"))
  | .ok (some sources) =>
  if sources.length = 0 then
    ([], .ok (formatFatalError "Failed to process sources"))
  else
  -- line 173: evaluated before any dispatch below
  match librariesSupplied inp with
  | .error e => ([], .error e)
  | .ok _libraries =>
  -- lines 176-189; each call site hands `_libraries` to translateOutput,
  -- whose one-parameter declaration drops it
  if m.hasCompileJSONCallback then
    match isOptimizerEnabled inp with
    | .error e => ([], .error e)
    | .ok opt =>
      let arg := stringifyJ (.jobj [("sources", .jobj sources)])
      match m.compileJSONCallbackImpl arg opt with
      | .error e => ([.callbackCall arg opt], .error e)
      | .ok out =>
          let tr := translateOutput jsonParse translator out
          (.callbackCall arg opt :: tr.1, tr.2)
  else if m.hasCompileJSONMulti then
    match isOptimizerEnabled inp with
    | .error e => ([], .error e)
    | .ok opt =>
      let arg := stringifyJ (.jobj [("sources", .jobj sources)])
      match m.compileJSONMultiImpl arg opt with
      | .error e => ([.multiCall arg opt], .error e)
      | .ok out =>
          let tr := translateOutput jsonParse translator out
          (.multiCall arg opt :: tr.1, tr.2)
  else if m.hasCompileJSON then
    match isOptimizerEnabled inp with
    | .error e => ([], .error e)
    | .ok opt =>
      let firstSource := match sources with
        | [] => JVal.jundefined
        | (_, v) :: _ => v
      match m.compileJSONImpl firstSource opt with
      | .error e => ([.singleCall firstSource opt], .error e)
      | .ok out =>
          let tr := translateOutput jsonParse translator out
          (.singleCall firstSource opt :: tr.1, tr.2)
  else
    ([], .ok (formatFatalError "Compiler does not support any known interface."))

/-- The four native entry-point generations. -/
inductive EntryKind where
  | standard
  | callback
  | multi
  | single
  deriving Repr, DecidableEq

/-- The generation of native entry point a call event belongs to (`none` for
the translator collaborator, which is not a native entry point). -/
def CallEvent.entryKindOf : CallEvent → Option EntryKind
  | .singleCall _ _ => some .single
  | .multiCall _ _ => some .multi
  | .callbackCall _ _ => some .callback
  | .standardCall _ _ => some .standard
  | .translatorCall _ => none

def CallEvent.isNativeEntry (e : CallEvent) : Bool :=
  e.entryKindOf.isSome

/-- The fixed preference order of the wrapper's dispatch: native standard
JSON, then callback-augmented, then multi-input, then legacy single input. -/
def preferredEntry (m : SoljsonModule) : Option EntryKind :=
  if m.compileStandardBinding.isSome then some .standard
  else if m.hasCompileJSONCallback then some .callback
  else if m.hasCompileJSONMulti then some .multi
  else if m.hasCompileJSON then some .single
  else none

/-- Events on the native module's function-pointer table. -/
inductive TableEvent where
  | added (ptr : Nat)
  | removed (ptr : Nat)
  deriving Repr, DecidableEq

/-- The module's function-pointer table: the registered pointers, the next
free pointer, and the log of registrations and deregistrations performed. -/
structure FunctionTable where
  entries : List Nat
  next : Nat
  log : List TableEvent
  deriving Repr, DecidableEq

/-- `addFunction` (Emscripten side of line 39): registers a wrapped callback
and returns the fresh function pointer. -/
def addFunction (t : FunctionTable) : FunctionTable × Nat :=
  ({ entries := t.next :: t.entries, next := t.next + 1, log := t.log ++ [.added t.next] }, t.next)

/-- `removeFunction` (Emscripten side of line 40). -/
def removeFunction (t : FunctionTable) (p : Nat) : FunctionTable :=
  { entries := t.entries.erase p, next := t.next, log := t.log ++ [.removed p] }

/-- `runWithReadCallback` (lines 29-53), instrumented with the
function-pointer table.  An undefined `readCallback` is replaced by the
default `File import callback not supported` resolver (lines 30-36); the
resolver's behaviour is invisible to the table, so only its shape is kept.
`wrapCallback`'s assertion (line 16) fires before `addFunction` when the
callback is defined but not a function.  `compile` is the native call, taking
the registered pointer (pushed onto `args` on line 45); it either returns the
raw output or throws.  The pointer is deregistered on the catch path (line
48) before the rethrow and on the normal path (line 51). -/
def runWithReadCallback (readCallback : CallbackArg)
    (compile : Nat → Except JsException String) (t : FunctionTable) :
    FunctionTable × Except JsException String :=
  match readCallback with
  | .notFn _ => (t, .error (.assertionError "Invalid callback specified."))
  | _ =>
      let a := addFunction t
      match compile a.2 with
      | .error e => (removeFunction a.1 a.2, .error e)
      | .ok out => (removeFunction a.1 a.2, .ok out)

/-! Concrete fixtures: request documents, their parse results, a `JSON.parse`
oracle covering them, concrete module handles and an identity translator. -/

/-- `{"language":"Solidity","sources":{"a.sol":{"content":"x"}}}` — the
spec's scenario request, with no settings block. -/
def reqNoSettings : String :=
  "\x7b\"language\":\"Solidity\",\"sources\":\x7b\"a.sol\":\x7b\"content\":\"x\"\x7d\x7d\x7d"

def reqNoSettingsVal : JVal :=
  .jobj [("language", .jstr "Solidity"),
         ("sources", .jobj [("a.sol", .jobj [("content", .jstr "x")])])]

/-- `{"language":"Solidity","sources":{}}` — empty sources mapping. -/
def reqEmptySources : String :=
  "\x7b\"language\":\"Solidity\",\"sources\":\x7b\x7d\x7d"

def reqEmptySourcesVal : JVal :=
  .jobj [("language", .jstr "Solidity"), ("sources", .jobj [])]

/-- Two sources and an (empty) settings block. -/
def reqTwoSources : String :=
  "\x7b\"language\":\"Solidity\",\"sources\":\x7b\"a.sol\":\x7b\"content\":\"x\"\x7d,\"b.sol\":\x7b\"content\":\"y\"\x7d\x7d,\"settings\":\x7b\x7d\x7d"

def reqTwoSourcesVal : JVal :=
  .jobj [("language", .jstr "Solidity"),
         ("sources", .jobj [("a.sol", .jobj [("content", .jstr "x")]),
                            ("b.sol", .jobj [("content", .jstr "y")])]),
         ("settings", .jobj [])]

/-- One source plus `settings.libraries` supplying a linking address. -/
def reqWithLibraries : String :=
  "\x7b\"language\":\"Solidity\",\"sources\":\x7b\"a.sol\":\x7b\"content\":\"x\"\x7d\x7d,\"settings\":\x7b\"libraries\":\x7b\"L\":\"0x1\"\x7d\x7d\x7d"

def reqWithLibrariesVal : JVal :=
  .jobj [("language", .jstr "Solidity"),
         ("sources", .jobj [("a.sol", .jobj [("content", .jstr "x")])]),
         ("settings", .jobj [("libraries", .jobj [("L", .jstr "0x1")])])]

/-- `{"language":"Vyper","sources":{}}` — unsupported language tag. -/
def reqWrongLanguage : String :=
  "\x7b\"language\":\"Vyper\",\"sources\":\x7b\x7d\x7d"

def reqWrongLanguageVal : JVal :=
  .jobj [("language", .jstr "Vyper"), ("sources", .jobj [])]

/-- A `JSON.parse` oracle covering the fixture documents and the native
output `{}`. -/
def parseFix (s : String) : Except String JVal :=
  if s = reqNoSettings then .ok reqNoSettingsVal
  else if s = reqEmptySources then .ok reqEmptySourcesVal
  else if s = reqTwoSources then .ok reqTwoSourcesVal
  else if s = reqWithLibraries then .ok reqWithLibrariesVal
  else if s = reqWrongLanguage then .ok reqWrongLanguageVal
  else if s = "\x7b\x7d" then .ok (.jobj [])
  else .error "Unexpected token in JSON"

/-- Identity behaviour for the external output translator. -/
def idTranslator : JVal → JVal := fun v => v

/-- A handle exporting only the legacy `_compileJSON` entry point, whose
native behaviour returns the output document `{}`. -/
def mLegacyOnly : SoljsonModule where
  hasCompileJSON := true
  hasCompileJSONMulti := false
  hasCompileJSONCallback := false
  hasCompileStandard := false
  hasSolidityCompile := false
  compileJSONImpl := fun _ _ => .ok "\x7b\x7d"
  compileJSONMultiImpl := fun _ _ => .error (.nativeFault "absent")
  compileJSONCallbackImpl := fun _ _ => .error (.nativeFault "absent")
  compileStandardImpl := fun _ => .error (.nativeFault "absent")
  solidityCompileImpl := fun _ => .error (.nativeFault "absent")

/-- A handle exporting only `_compileJSONCallback` (no native standard-JSON
entry point). -/
def mCallbackOnly : SoljsonModule where
  hasCompileJSON := false
  hasCompileJSONMulti := false
  hasCompileJSONCallback := true
  hasCompileStandard := false
  hasSolidityCompile := false
  compileJSONImpl := fun _ _ => .error (.nativeFault "absent")
  compileJSONMultiImpl := fun _ _ => .error (.nativeFault "absent")
  compileJSONCallbackImpl := fun _ _ => .ok "\x7b\x7d"
  compileStandardImpl := fun _ => .error (.nativeFault "absent")
  solidityCompileImpl := fun _ => .error (.nativeFault "absent")

/-- A handle exporting only `_solidity_compile`. -/
def mStdOnly : SoljsonModule where
  hasCompileJSON := false
  hasCompileJSONMulti := false
  hasCompileJSONCallback := false
  hasCompileStandard := false
  hasSolidityCompile := true
  compileJSONImpl := fun _ _ => .error (.nativeFault "absent")
  compileJSONMultiImpl := fun _ _ => .error (.nativeFault "absent")
  compileJSONCallbackImpl := fun _ _ => .error (.nativeFault "absent")
  compileStandardImpl := fun _ => .error (.nativeFault "absent")
  solidityCompileImpl := fun s => .ok ("native standard output for " ++ s)

/-- A handle exporting both `_compileStandard` and `_solidity_compile`, with
distinguishable native behaviours. -/
def mBothStandard : SoljsonModule where
  hasCompileJSON := false
  hasCompileJSONMulti := false
  hasCompileJSONCallback := false
  hasCompileStandard := true
  hasSolidityCompile := true
  compileJSONImpl := fun _ _ => .error (.nativeFault "absent")
  compileJSONMultiImpl := fun _ _ => .error (.nativeFault "absent")
  compileJSONCallbackImpl := fun _ _ => .error (.nativeFault "absent")
  compileStandardImpl := fun s => .ok ("compileStandard output for " ++ s)
  solidityCompileImpl := fun s => .ok ("solidity_compile output for " ++ s)

/-! Helper lemmas shared by the claim theorems. -/

deriving instance DecidableEq for Except

theorem translateOutput_no_native_entry (p : String → Except String JVal) (tr : JVal → JVal)
    (o : String) : (translateOutput p tr o).1.filter CallEvent.isNativeEntry = [] := by
  unfold translateOutput
  cases p o with
  | error msg => rfl
  | ok parsedOut =>
      by_cases h : (tr parsedOut).looseNull = true <;>
        simp [h, CallEvent.isNativeEntry, CallEvent.entryKindOf]

theorem translateOutput_mem_none (p : String → Except String JVal) (tr : JVal → JVal)
    (o : String) (e : CallEvent) (he : e ∈ (translateOutput p tr o).1) :
    e.entryKindOf = none := by
  unfold translateOutput at he
  cases hp : p o with
  | error msg => rw [hp] at he; simp at he
  | ok parsedOut =>
      rw [hp] at he
      by_cases h : (tr parsedOut).looseNull = true <;>
        simp [h] at he <;> simp [he, CallEvent.entryKindOf]

/-! Theorems for the claims. -/

/-- C1: the claim states that in degraded mode (no native standard-JSON entry
point) every parseable request — in particular one with no settings block —
either yields a JSON string or raises only from the native call itself.  The
code violates this: for the parseable request
`{"language":"Solidity","sources":{"a.sol":{"content":"x"}}}` (no settings
block) the guard `input['settings'] !== null` in `librariesSupplied` passes
(the absent settings block reads back as `undefined`, and `undefined !== null`
is true), the subsequent property access on `undefined` throws a TypeError,
and that exception escapes the wrapper before any native call (the event list
is empty). -/
theorem compile_no_settings_typeError_escapes :
    compileStandardWrapper mCallbackOnly parseFix idTranslator reqNoSettings .absent
      = ([], .error (.typeError "Cannot read properties of undefined")) := by rfl

/-- C2: the claim states that an empty sources mapping yields the fatal
message `No input specified` with zero native calls.  The code makes zero
native calls but returns the fatal message `Failed to process sources`
instead: `input['sources'].length` on an object is `undefined`, so the
`length === 0` guard on line 122 never fires for a mapping, and the empty
case falls through to the `Object.keys(sources).length === 0` check on
line 168. -/
theorem compile_emptySources_failedToProcessSources :
    compileStandardWrapper mLegacyOnly parseFix idTranslator reqEmptySources .absent
      = ([], .ok (formatFatalError "Failed to process sources"))
    ∧ formatFatalError "Failed to process sources" ≠ formatFatalError "No input specified" :=
  ⟨rfl, by decide⟩

/-- C3: the claim states that a request with more than one source against a
handle with only the legacy single-input entry point yields the fatal
`Multiple sources provided...` response with no native call.  The code
instead invokes the legacy entry point with the first source's content: the
bail-out guard `input['sources'].length > 1` on line 127 compares
`undefined > 1`, which is false for a mapping, so dispatch falls through to
`compileJSON` on line 186. -/
theorem compile_twoSources_legacy_invokes_native :
    compileStandardWrapper mLegacyOnly parseFix idTranslator reqTwoSources .absent
      = ([.singleCall (.jstr "x") .jundefined, .translatorCall [.jobj []]], .ok "\x7b\x7d")
    ∧ ("\x7b\x7d" : String)
        ≠ formatFatalError "Multiple sources provided, but compiler only supports single input" :=
  ⟨rfl, by decide⟩

/-- C4: the claim's scenario — the request
`{"language":"Solidity","sources":{"a.sol":{"content":"x"}}}` against a
handle exposing only the legacy entry point — should invoke `compileJSON`
with `"x"` and a false optimizer flag.  The code never reaches the dispatch:
`librariesSupplied` on line 173 throws a TypeError on the absent settings
block (see C1), so no native call happens and the exception escapes. -/
theorem compile_scenario_legacy_no_settings_typeError :
    compileStandardWrapper mLegacyOnly parseFix idTranslator reqNoSettings .absent
      = ([], .error (.typeError "Cannot read properties of undefined")) := by rfl

/-- C5: the claim states the output translator receives the library-linking
addresses extracted from settings in addition to the parsed native output.
In the code `translateOutput` is declared with the single parameter `output`
(line 154), so the `libraries` second argument passed at its call sites is
dropped and `translate.translateJsonCompilerOutput` receives only the parsed
output: in a degraded compile of a request supplying
`settings.libraries = {"L":"0x1"}`, the translator-call event carries exactly
the one-element argument list `[{}]`, and no event carrying the libraries
value occurs. -/
theorem compile_translator_receives_output_only :
    compileStandardWrapper mLegacyOnly parseFix idTranslator reqWithLibraries .absent
      = ([.singleCall (.jstr "x") .jundefined, .translatorCall [.jobj []]], .ok "\x7b\x7d")
    ∧ CallEvent.translatorCall [.jobj [], .jobj [("L", .jstr "0x1")]]
        ∉ (compileStandardWrapper mLegacyOnly parseFix idTranslator reqWithLibraries .absent).1 := by
  refine ⟨rfl, ?_⟩
  intro h
  have hev : (compileStandardWrapper mLegacyOnly parseFix idTranslator reqWithLibraries .absent).1
      = [.singleCall (.jstr "x") .jundefined, .translatorCall [.jobj []]] := rfl
  rw [hev] at h
  simp at h

/-- C6: for every bridged native compile call (the callback being `undefined`
or a function, so that `wrapCallback`'s assertion does not fire), the pointer
registered by `addFunction` immediately before the call is handed to
`removeFunction` exactly once afterwards — the log gains exactly one `added`
and then one `removed` event for that pointer — and the table's registered
entries are restored, whether the native call returns normally or throws. -/
theorem runWithReadCallback_unregisters_exactly_once
    (rc : CallbackArg) (compile : Nat → Except JsException String) (t : FunctionTable)
    (hfn : rc.isNotFn = false) :
    (runWithReadCallback rc compile t).1.entries = t.entries ∧
    (runWithReadCallback rc compile t).1.log
      = t.log ++ [.added t.next, .removed t.next] := by
  cases rc with
  | notFn v => simp [CallbackArg.isNotFn] at hfn
  | absent =>
      cases h : compile t.next <;>
        simp [runWithReadCallback, addFunction, removeFunction, h]
  | fn =>
      cases h : compile t.next <;>
        simp [runWithReadCallback, addFunction, removeFunction, h]

theorem runWithReadCallback_unregisters_exactly_once_witness :
    (CallbackArg.absent.isNotFn = false) ∧
    ((runWithReadCallback .absent (fun _ => .error (.nativeFault "native crash"))
        ⟨[], 0, []⟩).1.entries = [] ∧
     (runWithReadCallback .absent (fun _ => .error (.nativeFault "native crash"))
        ⟨[], 0, []⟩).1.log = [] ++ [.added 0, .removed 0]) :=
  ⟨rfl, runWithReadCallback_unregisters_exactly_once .absent
    (fun _ => .error (.nativeFault "native crash")) ⟨[], 0, []⟩ rfl⟩

/-- C8 counterexample: the claim says a request with a non-Solidity language
yields the synthesized fatal response and no native call "regardless of which
entry points the handle exposes".  Against a handle exposing the native
standard-JSON entry point, the wrapper delegates the raw request on line 89
before any validation: a native call occurs and the synthesized fatal
document is not returned. -/
theorem compile_nonSolidity_standard_still_calls_native :
    (compileStandardWrapper mStdOnly parseFix idTranslator reqWrongLanguage .absent).1
      = [.standardCall .viaSolidityCompile reqWrongLanguage]
    ∧ (compileStandardWrapper mStdOnly parseFix idTranslator reqWrongLanguage .absent).2
        ≠ .ok (formatFatalError "Only Solidity sources are supported") :=
  ⟨rfl, by decide⟩

/-- C8 (amended): provided the handle has no native standard-JSON binding,
every request (under any parse oracle) whose parsed language field is not the
string `Solidity` yields the synthesized fatal
`Only Solidity sources are supported` response with no native call; with a
native standard-JSON binding the raw request is instead passed through to
that entry point. -/
theorem compile_nonSolidity_degraded_fatal
    (m : SoljsonModule) (p : String → Except String JVal) (tr : JVal → JVal)
    (input : String) (rc : CallbackArg) (inp lang : JVal)
    (hstd : m.compileStandardBinding = none)
    (hrc : rc.isNotFn = false)
    (hp : p input = .ok inp)
    (hlang : inp.getProp "language" = .ok lang)
    (hne : lang.strictEqStr "Solidity" = false) :
    compileStandardWrapper m p tr input rc
      = ([], .ok (formatFatalError "Only Solidity sources are supported")) := by
  simp [compileStandardWrapper, hstd, hrc, hp, hlang, hne]

theorem compile_nonSolidity_degraded_fatal_witness :
    compileStandardWrapper mLegacyOnly parseFix idTranslator reqWrongLanguage .absent
      = ([], .ok (formatFatalError "Only Solidity sources are supported")) :=
  compile_nonSolidity_degraded_fatal mLegacyOnly parseFix idTranslator reqWrongLanguage .absent
    reqWrongLanguageVal (.jstr "Vyper") rfl rfl rfl rfl rfl

/-- C9: when `readCallback` is defined but not a function and the handle has
no native standard-JSON binding, the wrapper returns the synthesized fatal
`Invalid import callback supplied` response before parsing the input — the
result holds for every input string and every parse oracle, and no exception
is raised. -/
theorem compile_invalid_callback_fatal_before_parsing
    (m : SoljsonModule) (p : String → Except String JVal) (tr : JVal → JVal)
    (input : String) (v : JVal)
    (hstd : m.compileStandardBinding = none) :
    compileStandardWrapper m p tr input (.notFn v)
      = ([], .ok (formatFatalError "Invalid import callback supplied")) := by
  simp [compileStandardWrapper, hstd, CallbackArg.isNotFn]

theorem compile_invalid_callback_fatal_before_parsing_witness :
    compileStandardWrapper mLegacyOnly (fun _ => .error "never reached") idTranslator
        "not even JSON" (.notFn (.jnum 42))
      = ([], .ok (formatFatalError "Invalid import callback supplied")) :=
  compile_invalid_callback_fatal_before_parsing mLegacyOnly
    (fun _ => .error "never reached") idTranslator "not even JSON" (.jnum 42) rfl

/-- C10: when the handle exports both `_compileStandard` and
`_solidity_compile`, the later capability probe (lines 80-85) overwrites the
binding made from `_compileStandard` (lines 73-79), so the standard-JSON path
is bound to `solidity_compile`: the one native call is tagged with that
symbol and the result is `solidity_compile`'s output — `_compileStandard` is
never called. -/
theorem compile_standard_binding_prefers_solidity_compile
    (m : SoljsonModule) (p : String → Except String JVal) (tr : JVal → JVal)
    (input : String) (rc : CallbackArg)
    (_hold : m.hasCompileStandard = true)
    (hnew : m.hasSolidityCompile = true)
    (hrc : rc.isNotFn = false) :
    m.compileStandardBinding = some .viaSolidityCompile ∧
    compileStandardWrapper m p tr input rc
      = ([.standardCall .viaSolidityCompile input], m.solidityCompileImpl input) := by
  have hb : m.compileStandardBinding = some .viaSolidityCompile := by
    simp [SoljsonModule.compileStandardBinding, hnew]
  exact ⟨hb, by simp [compileStandardWrapper, hb, hrc]⟩

theorem compile_standard_binding_prefers_solidity_compile_witness :
    mBothStandard.compileStandardBinding = some .viaSolidityCompile ∧
    compileStandardWrapper mBothStandard parseFix idTranslator "input-doc" .fn
      = ([.standardCall .viaSolidityCompile "input-doc"],
         .ok ("solidity_compile output for input-doc")) :=
  compile_standard_binding_prefers_solidity_compile mBothStandard parseFix idTranslator
    "input-doc" .fn rfl rfl rfl

/-- C7: for every handle, parse oracle, translator, input and callback
argument, the wrapper performs at most one native-entry call, and any
native-entry call it performs belongs to the first entry point present in
the fixed preference order native-standard-JSON, then callback-augmented,
then multi-input, then legacy single-input (`preferredEntry`); the only
other call is to the output translator. -/
theorem compile_at_most_one_entry_and_preferred
    (m : SoljsonModule) (p : String → Except String JVal) (tr : JVal → JVal)
    (input : String) (rc : CallbackArg) (evs : List CallEvent)
    (res : Except JsException String)
    (h : compileStandardWrapper m p tr input rc = (evs, res)) :
    (evs.filter CallEvent.isNativeEntry).length ≤ 1 ∧
    ∀ e ∈ evs, e.entryKindOf = none ∨ e.entryKindOf = preferredEntry m := by
  unfold compileStandardWrapper at h
  repeat' (first | split at h | dsimp only [] at h)
  all_goals (injection h with h1 h2; subst h1)
  all_goals refine ⟨?_, ?_⟩
  all_goals try (simp; done)
  all_goals try (simp [List.filter_cons, CallEvent.isNativeEntry, CallEvent.entryKindOf,
    translateOutput_no_native_entry]; done)
  all_goals
    intro e he
    rcases List.mem_cons.mp he with rfl | hT
    · right
      simp_all [CallEvent.entryKindOf, preferredEntry]
    · first
        | exact absurd hT (List.not_mem_nil _)
        | (left; exact translateOutput_mem_none _ _ _ _ hT)

theorem compile_at_most_one_entry_and_preferred_witness :
    (([CallEvent.standardCall .viaSolidityCompile reqWrongLanguage].filter
        CallEvent.isNativeEntry).length ≤ 1)
    ∧ ((CallEvent.standardCall .viaSolidityCompile reqWrongLanguage).entryKindOf = none ∨
       (CallEvent.standardCall .viaSolidityCompile reqWrongLanguage).entryKindOf
         = preferredEntry mStdOnly) := by
  have h := compile_at_most_one_entry_and_preferred mStdOnly parseFix idTranslator
    reqWrongLanguage .absent [CallEvent.standardCall .viaSolidityCompile reqWrongLanguage]
    (.ok ("native standard output for " ++ reqWrongLanguage)) rfl
  exact ⟨h.1, h.2 _ (List.mem_singleton.mpr rfl)⟩
